import Mathlib

/-!
# Verification of the cprovlib document-signing subsystem

A shallow embedding of the Go package `cprovlib` (files `logger.go`,
the zerolog adapter, and the `CryptoCLI` signing orchestrator) together
with theorems about its retry, classification, logging, workspace and
error-propagation behaviour.

External effects (the filesystem, the `cryptcp` process, the random
generator, the caller's context) are supplied by an explicit environment
`Env`; `signDocument` is then a deterministic function from the
configuration, the request and the environment to a trace of observable
events plus a result, translated statement by statement from the Go
source of `SignDocument`.
-/

namespace Cprovlib

deriving instance DecidableEq for Except

/-- ASCII-style lowering of a string, modelling Go's `strings.ToLower`
as used on the tool's output. -/
def lowerStr (s : String) : String :=
  String.mk (s.data.map Char.toLower)

/-- `pat` occurs as a contiguous substring of the character list. -/
def subChars (pat : List Char) : List Char → Bool
  | [] => pat.isEmpty
  | c :: rest => pat.isPrefixOf (c :: rest) || subChars pat rest

/-- Go's `strings.Contains hay pat`. -/
def strContains (hay pat : String) : Bool :=
  subChars pat.data hay.data

/-- Go's `strings.HasPrefix s pre`. -/
def hasPrefixStr (s pre : String) : Bool :=
  pre.data.isPrefixOf s.data

/-- Go's `fmt.Sprintf("%v", err)` on a value of interface type `error`:
a nil error prints as `<nil>`. -/
def errVStr : Option String → String
  | none => "<nil>"
  | some s => s

/-- The base64 standard alphabet. -/
def b64Alphabet : List Char :=
  "ABCDEFGHIJKLMNOPQRSTUVWXYZabcdefghijklmnopqrstuvwxyz0123456789+/".data

/-- Digit of the base64 standard alphabet. -/
def b64Char (n : Nat) : Char := b64Alphabet.getD n 'A'

/-- Go's `base64.StdEncoding.EncodeToString` on a byte list (bytes as
`Nat`, reduced mod 256 where bits are extracted). -/
def base64Encode : List Nat → String
  | [] => ""
  | [a] =>
      String.mk [b64Char (a % 256 / 4), b64Char (a % 256 % 4 * 16)] ++ "=="
  | [a, b] =>
      String.mk [b64Char (a % 256 / 4),
                 b64Char (a % 256 % 4 * 16 + b % 256 / 16),
                 b64Char (b % 256 % 16 * 4)] ++ "="
  | a :: b :: c :: rest =>
      String.mk [b64Char (a % 256 / 4),
                 b64Char (a % 256 % 4 * 16 + b % 256 / 16),
                 b64Char (b % 256 % 16 * 4 + c % 256 / 64),
                 b64Char (c % 256 % 64)] ++ base64Encode rest

/-- Opaque content of a `zerolog.Logger` value (the adapter never
inspects it). -/
structure ZeroLogger where
  id : Nat
deriving DecidableEq, Repr

/-- A value of the `Logger` interface: the slog-backed default, the
zerolog adapter, or some caller-supplied implementation. -/
inductive Logger where
  | defaultL : Logger
  | zerologAdapter (l : ZeroLogger) : Logger
  | custom (id : Nat) : Logger
deriving DecidableEq, Repr

/-- `NewDefaultLogger` from `logger.go`: returns the slog-backed
default logger. -/
def NewDefaultLogger : Logger := Logger.defaultL

/-- `NewZerologAdapter`: a nil `*zerolog.Logger` (modelled `none`)
yields the default logger, otherwise the adapter wrapping it. -/
def NewZerologAdapter (logger : Option ZeroLogger) : Logger :=
  match logger with
  | none => NewDefaultLogger
  | some l => Logger.zerologAdapter l

/-- The `CryptoCLI` struct. The `logger` field has the Go interface
type `Logger`, whose values may be nil; `none` models a nil interface
value. -/
structure CryptoCLI where
  store : String
  tspURL : String
  tspServers : List String
  signType : Nat
  skipChainValidation : Bool
  certmgrPath : String
  cryptcpPath : String
  tmpDir : String
  logger : Option Logger
deriving DecidableEq, Repr

/-- The package-level `DefaultTSPServers` list. -/
def DefaultTSPServers : List String :=
  ["http://qs.cryptopro.ru/tsp/tsp.srf",
   "http://pki.tax.gov.ru/tsp/tsp.srf",
   "http://tax4.tensor.ru/tsp/tsp.srf"]

/-- The constructor `New`: a nil logger is replaced by the default
logger and an empty TSP pool by `DefaultTSPServers`. -/
def New (store : String) (tspServers : List String) (signType : Nat)
    (logger : Option Logger) (skipChainValidation : Bool) : CryptoCLI :=
  let logger := match logger with
    | none => some NewDefaultLogger
    | some l => some l
  let tspServers := if tspServers.length = 0 then DefaultTSPServers else tspServers
  { store := store
    tspURL := ""
    tspServers := tspServers
    signType := signType
    skipChainValidation := skipChainValidation
    certmgrPath := "/opt/cprocsp/bin/amd64/certmgr"
    cryptcpPath := "/opt/cprocsp/bin/amd64/cryptcp"
    tmpDir := "/tmp"
    logger := logger }

/-- `getRandomTSPServer`: empty pool yields `""`, a single entry is
returned deterministically, otherwise `rand.Intn(len)` picks an index;
the generator's raw draw `randVal` is reduced mod the pool size. -/
def getRandomTSPServer (c : CryptoCLI) (randVal : Nat) : String :=
  if c.tspServers.length = 0 then ""
  else if c.tspServers.length = 1 then c.tspServers.getD 0 ""
  else c.tspServers.getD (randVal % c.tspServers.length) ""

/-- `formatStoreOption`: "MY" -> "-uMy", "CA" -> "-uCa", "uMy" -> "-uMy". -/
def formatStoreOption (c : CryptoCLI) : String :=
  let store := c.store
  let lowerStore := lowerStr store
  if hasPrefixStr lowerStore "u" || hasPrefixStr lowerStore "m" then
    "-" ++ store
  else
    match store.data with
    | [] => "-u" ++ store
    | c0 :: rest => "-u" ++ String.mk (c0.toUpper :: rest.map Char.toLower)

/-- The observable outcome of running `cryptcp` once: the exit error of
`cmd.Run()` (`none` = success), captured stdout/stderr, the measured
duration in whole seconds, whether `os.Stat` finds the expected
signature file afterwards, and the directory listing used for
diagnostics when the file is missing. -/
structure ExecResult where
  exitErr : Option String
  stdout : String
  stderr : String
  durationSec : Nat
  signFileExists : Bool
  dirFiles : List String
deriving DecidableEq, Repr

/-- `errorText` of an attempt:
`strings.ToLower(fmt.Sprintf("%v %s %s", err, stdoutStr, stderrStr))`. -/
def errorText (r : ExecResult) : String :=
  lowerStr (errVStr r.exitErr ++ " " ++ r.stdout ++ " " ++ r.stderr)

/-- `hasErrorInOutput`: the lowered concatenation contains "error:". -/
def hasErrorInOutput (r : ExecResult) : Bool :=
  strContains (errorText r) "error:"

/-- `isHTTPError`: the lowered concatenation contains "http error". -/
def isHTTPError (r : ExecResult) : Bool :=
  strContains (errorText r) "http error"

/-- The success condition of one attempt (lines 240): exit error
absent, signature file present, no "error:" in the output. -/
def attemptSucceeds (r : ExecResult) : Bool :=
  r.exitErr.isNone && r.signFileExists && !hasErrorInOutput r

/-- The diagnostic (`lastErr`) built for a failed attempt, one
constructor per `fmt.Errorf` site in the failure branch. -/
inductive LastErr where
  | fileNotCreated (durSec : Nat) (signFile workDir : String)
      (files : List String) (stdout stderr : String)
  | errorInOutput (durSec : Nat) (stdout stderr : String)
  | cmdFailed (durSec : Nat) (err : Option String) (stdout stderr : String)
deriving DecidableEq, Repr

/-- Build `lastErr` from a failed attempt, following the branch order
of the source (missing file first, then "error:" in output, then plain
command failure). -/
def mkLastErr (r : ExecResult) (signFile workDir : String) : LastErr :=
  if !r.signFileExists then
    .fileNotCreated r.durationSec signFile workDir r.dirFiles r.stdout r.stderr
  else if hasErrorInOutput r then
    .errorInOutput r.durationSec r.stdout r.stderr
  else
    .cmdFailed r.durationSec r.exitErr r.stdout r.stderr

/-- The sentinel errors of the package. -/
inductive BaseErr where
  | certInstall
  | certDelete
  | signature
deriving DecidableEq, Repr

/-- The message part of each error return of `SignDocument`, one
constructor per `fmt.Errorf` site, carrying the formatted components. -/
inductive ErrMsg where
  | base64Decode (detail : String)
  | createWorkDir (detail : String)
  | writeDataFile (detail : String)
  | tspRequired
  | ctxCancelledBeforeExec (detail : String)
  | toolFailure (e : LastErr)
  | signFileNotCreated (signFile workDir : String) (files : List String)
  | readSignFileFailed (signFile detail stdout stderr : String)
deriving DecidableEq, Repr

/-- A Go error value as returned by `SignDocument`: every site wraps a
sentinel with `%w`, recorded in `wraps` so that `errors.Is` is the test
`wraps = some _`. -/
structure GoError where
  wraps : Option BaseErr
  msg : ErrMsg
deriving DecidableEq, Repr

/-- Severity levels of the `Logger` interface. -/
inductive Level where
  | debug
  | info
  | warn
  | error
deriving DecidableEq, Repr

/-- A value passed in a key/value logging field. -/
inductive LogVal where
  | str (s : String)
  | nat (n : Nat)
  | bool (b : Bool)
  | strList (l : List String)
  | lastE (e : Option LastErr)
  | ctxE (e : Option String)
deriving DecidableEq, Repr

/-- Observable events of one `SignDocument` run: a `cryptcp` process
execution, an inter-attempt sleep (seconds), a logger call, and the
deferred recursive removal of the workspace. -/
inductive Event where
  | execCmd (path : String) (args : List String) (dir : String)
  | sleep (seconds : Nat)
  | log (lvl : Level) (msg : String) (fields : List (String × LogVal))
  | removeDirAll (dir : String)
deriving DecidableEq, Repr

/-- The external world of one `SignDocument` call: results of the
base64 decode of the input, of `os.MkdirTemp`, of `os.WriteFile`, the
random draws, the caller context's error, the per-attempt execution
results (`execResults i` is attempt `i+1`), the final `os.Stat`
re-check, the final directory listing and the result of reading the
signature file. -/
structure Env where
  decodeResult : Except String (List Nat)
  mkdirResult : Except String String
  writeResult : Except String Unit
  rands : Nat → Nat
  ctxErr : Option String
  execResults : Nat → ExecResult
  finalStatMissing : Bool
  finalDirFiles : List String
  readResult : Except String (List Nat)

/-- `maxAttempts` of the retry loop. -/
def maxAttempts : Nat := 3

/-- The signing request: the arguments of `SignDocument`. -/
structure SignRequest where
  thumbprint : String
  pin : String
  dataBase64 : String
  attachSignature : Option Bool
  signType : Option Nat
deriving DecidableEq, Repr

/-- The effective CAdES profile: the request's `signType` when given,
otherwise the configured one. -/
def effectiveSignType (c : CryptoCLI) (req : SignRequest) : Nat :=
  match req.signType with
  | none => c.signType
  | some t => t

/-- The retry loop of `SignDocument` (lines 181-288 of the source),
translated with an explicit fuel (called with `maxAttempts` fuel and
`attempt = 1`). Returns the events of the loop, the final `lastErr`
— note the source never clears `lastErr` when a later attempt
succeeds — and the `stdoutStr`/`stderrStr` of the last attempt run. -/
def attemptLoop (c : CryptoCLI) (env : Env) (args : List String)
    (signFile workDir : String) :
    Nat → Nat → Option LastErr → String → String →
    List Event × Option LastErr × String × String
  | 0, _, lastErr, so, se => ([], lastErr, so, se)
  | fuel + 1, attempt, lastErr, _, _ =>
    let pre : List Event :=
      if attempt > 1 then
        [.log .warn "retrying signature"
           [("attempt", .nat attempt), ("maxAttempts", .nat maxAttempts),
            ("previousError", .lastE lastErr)],
         .sleep (attempt - 1)]
      else []
    let r := env.execResults (attempt - 1)
    let evDone : List Event :=
      [.execCmd c.cryptcpPath args workDir,
       .log .info "cryptcp completed"
         [("attempt", .nat attempt), ("duration", .nat r.durationSec),
          ("hasError", .bool r.exitErr.isSome),
          ("hasStdout", .bool (r.stdout != "")),
          ("hasStderr", .bool (r.stderr != ""))]]
    let evOut : List Event :=
      if r.stdout != "" || r.stderr != "" then
        [.log .debug "cryptcp output"
           [("attempt", .nat attempt), ("stdout", .str r.stdout),
            ("stderr", .str r.stderr), ("duration", .nat r.durationSec)]]
      else []
    let base := pre ++ evDone ++ evOut
    if attemptSucceeds r then
      (base ++ [.log .info "signature created successfully"
                  [("attempt", .nat attempt), ("signFile", .str signFile)]],
       lastErr, r.stdout, r.stderr)
    else
      let newErr := mkLastErr r signFile workDir
      if attempt = maxAttempts then
        (base ++ [.log .error "all retry attempts exhausted"
                    [("attempt", .nat attempt), ("maxAttempts", .nat maxAttempts),
                     ("lastError", .lastE (some newErr))]],
         some newErr, r.stdout, r.stderr)
      else if !isHTTPError r then
        (base ++ [.log .warn "non-HTTP error detected, stopping retries"
                    [("attempt", .nat attempt), ("error", .lastE (some newErr))]],
         some newErr, r.stdout, r.stderr)
      else
        let evRetry : List Event :=
          [.log .warn "detected HTTP error from TSP server, will retry"
             [("attempt", .nat attempt), ("maxAttempts", .nat maxAttempts),
              ("error", .lastE (some newErr))]]
        let next := attemptLoop c env args signFile workDir fuel (attempt + 1)
          (some newErr) r.stdout r.stderr
        (base ++ evRetry ++ next.1, next.2)

/-- `isAttached`: `attachSignature != nil && *attachSignature`. -/
def isAttachedReq (req : SignRequest) : Bool :=
  req.attachSignature == some true

/-- `fileExt`: `.sig` for attached signatures, `.sgn` for detached. -/
def fileExt (req : SignRequest) : String :=
  if isAttachedReq req then ".sig" else ".sgn"

/-- The argument list built before the CAdES-profile flags (lines
97-117 of the source): sign selector, store, thumbprint, PIN, the
optional chain-suppression flags, the attachment flag and `-der`. -/
def baseArgs (c : CryptoCLI) (req : SignRequest) : List String :=
  let args0 := ["-sign", formatStoreOption c,
                "-thumbprint", req.thumbprint, "-pin", req.pin]
  let args1 := if c.skipChainValidation
    then args0 ++ ["-nochain", "-norev"] else args0
  let args2 := args1 ++ [if isAttachedReq req then "-attached" else "-detached"]
  args2 ++ ["-der"]

/-- The complete `cryptcp` argument list: the base arguments, the
CAdES-profile flags (with the selected TSP endpoint for CAdES-T), the
input file name and the output-extension flag. -/
def fullArgs (c : CryptoCLI) (req : SignRequest) (selectedTSP : String) : List String :=
  (if effectiveSignType c req = 1
    then baseArgs c req ++ ["-cadest", "-cadestsa", selectedTSP]
    else baseArgs c req ++ ["-cadesbes"]) ++
  ["data.txt", "-fext", fileExt req]

/-- `selectedTSP`: `getRandomTSPServer` is consulted exactly once, with
the first random draw, and only for the CAdES-T profile. -/
def selTSP (c : CryptoCLI) (req : SignRequest) (env : Env) : String :=
  if effectiveSignType c req = 1 then getRandomTSPServer c (env.rands 0) else ""

/-- The fields of the "cryptcp starting" info log (lines 157-166). -/
def startingFields (c : CryptoCLI) (req : SignRequest)
    (workDir selectedTSP : String) : List (String × LogVal) :=
  [("thumbprint", .str req.thumbprint), ("workDir", .str workDir),
   ("signType", .nat (effectiveSignType c req)),
   ("skipChainValidation", .bool c.skipChainValidation)] ++
  (if selectedTSP != "" then
    [("tspURL", .str selectedTSP), ("tspServersCount", .nat c.tspServers.length)]
   else [])

/-- The `cryptcp args` debug log event (line 150), whose `args` field
carries the full argument list, PIN included. -/
def argsLogEvent (c : CryptoCLI) (req : SignRequest) (selectedTSP : String) : Event :=
  .log .debug "cryptcp args" [("args", .strList (fullArgs c req selectedTSP))]

/-- The "cryptcp starting" info log event (line 167). -/
def startLogEvent (c : CryptoCLI) (req : SignRequest)
    (workDir selectedTSP : String) : Event :=
  .log .info "cryptcp starting" (startingFields c req workDir selectedTSP)

/-- `signFile`: `workDir + "/data.txt" + fileExt`. -/
def signFileName (workDir : String) (req : SignRequest) : String :=
  workDir ++ "/data.txt" ++ fileExt req

/-- The retry loop as entered by `SignDocument`: `maxAttempts` fuel,
attempt counter 1, no previous error. -/
def theLoop (c : CryptoCLI) (req : SignRequest) (env : Env) (workDir : String) :
    List Event × Option LastErr × String × String :=
  attemptLoop c env (fullArgs c req (selTSP c req env))
    (signFileName workDir req) workDir maxAttempts 1 none "" ""

/-- The post-loop tail of `SignDocument` (lines 290-322): return the
surviving `lastErr` if any, re-stat the signature file, read it and
base64-encode it. `lr` is the loop's result (`lastErr`, last stdout,
last stderr); the deferred `os.RemoveAll(workDir)` closes the trace. -/
def afterLoop (signFile workDir : String) (env : Env) (evs : List Event)
    (lr : Option LastErr × String × String) :
    List Event × Except GoError String :=
  match lr.1 with
  | some le =>
      (evs ++ [.removeDirAll workDir], .error ⟨some .signature, .toolFailure le⟩)
  | none =>
      if env.finalStatMissing then
        (evs ++ [.log .error "signature file not created"
            [("file", .str signFile), ("workDir", .str workDir),
             ("filesInDir", .strList env.finalDirFiles),
             ("contextErr", .ctxE env.ctxErr)],
          .removeDirAll workDir],
         .error ⟨some .signature,
           .signFileNotCreated signFile workDir env.finalDirFiles⟩)
      else
        match env.readResult with
        | .error e =>
            (evs ++ [.removeDirAll workDir],
             .error ⟨some .signature,
               .readSignFileFailed signFile e lr.2.1 lr.2.2⟩)
        | .ok bytes =>
            (evs ++ [.removeDirAll workDir], .ok (base64Encode bytes))

/-- `SignDocument`, translated statement by statement. Returns the
trace of observable events and either the base64-encoded signature or
a `GoError`. The deferred `os.RemoveAll(workDir)` appends a
`removeDirAll` event on every exit path entered after the workspace
was created. -/
def signDocument (c : CryptoCLI) (req : SignRequest) (env : Env) :
    List Event × Except GoError String :=
  match env.decodeResult with
  | .error e => ([], .error ⟨some .signature, .base64Decode e⟩)
  | .ok _data =>
    match env.mkdirResult with
    | .error e => ([], .error ⟨some .signature, .createWorkDir e⟩)
    | .ok workDir =>
      match env.writeResult with
      | .error e => ([.removeDirAll workDir],
          .error ⟨some .signature, .writeDataFile e⟩)
      | .ok _ =>
        if effectiveSignType c req = 1 ∧ selTSP c req env = "" then
          ([.removeDirAll workDir], .error ⟨some .signature, .tspRequired⟩)
        else
          match env.ctxErr with
          | some ce =>
              ([argsLogEvent c req (selTSP c req env), .removeDirAll workDir],
               .error ⟨some .signature, .ctxCancelledBeforeExec ce⟩)
          | none =>
            let loop := theLoop c req env workDir
            afterLoop (signFileName workDir req) workDir env
              ([argsLogEvent c req (selTSP c req env),
                startLogEvent c req workDir (selTSP c req env)] ++ loop.1)
              loop.2

/-- Recogniser for process-execution events. -/
def isExecEvent : Event → Bool
  | .execCmd _ _ _ => true
  | _ => false

/-- Number of `cryptcp` process executions recorded in a trace. -/
def execCount (tr : List Event) : Nat := (tr.filter isExecEvent).length

/-- The sequence of sleep durations (seconds) recorded in a trace. -/
def sleepList (tr : List Event) : List Nat :=
  tr.filterMap fun e => match e with | .sleep n => some n | _ => none

/-- The argument list of an execution event (empty for other events). -/
def execArgs : Event → List String
  | .execCmd _ a _ => a
  | _ => []

end Cprovlib

namespace Cprovlib

/-- A concrete `CryptoCLI` configuration with a two-endpoint TSP pool and the CAdES-T profile. -/
def cfgFix : CryptoCLI :=
  { store := "uMy", tspURL := "", tspServers := ["http://a", "http://b"],
    signType := 1, skipChainValidation := false, certmgrPath := "cm",
    cryptcpPath := "cc", tmpDir := "/tmp", logger := some .defaultL }

/-- The same configuration with an empty TSP endpoint pool. -/
def cfgEmptyFix : CryptoCLI := { cfgFix with tspServers := [] }

/-- A concrete signing request whose PIN is "SECRET-PIN". -/
def reqFix : SignRequest :=
  { thumbprint := "TH", pin := "SECRET-PIN", dataBase64 := "AAAA",
    attachSignature := none, signType := none }

/-- An execution result for a fully successful attempt. -/
def execOk : ExecResult :=
  { exitErr := none, stdout := "", stderr := "", durationSec := 1,
    signFileExists := true, dirFiles := [] }

/-- An execution result for a retryable attempt: the tool reports "HTTP error 503" and leaves no signature file. -/
def execHTTP : ExecResult :=
  { exitErr := some "exit status 1", stdout := "HTTP error 503", stderr := "",
    durationSec := 2, signFileExists := false, dirFiles := ["data.txt"] }

/-- An execution result for a fatal attempt: exit status zero but "Error:" in stdout. -/
def execFatal : ExecResult :=
  { exitErr := none, stdout := "Error: something bad", stderr := "",
    durationSec := 2, signFileExists := true, dirFiles := [] }

/-- An environment where attempts 1 and 2 fail with the retryable HTTP-error marker and attempt 3 succeeds; the random draws are 0, 1, 2, .... -/
def envRetrySucc : Env :=
  { decodeResult := .ok [1, 2, 3], mkdirResult := .ok "/tmp/cprov_x",
    writeResult := .ok (), rands := fun n => n, ctxErr := none,
    execResults := fun i => if i = 2 then execOk else execHTTP,
    finalStatMissing := false, finalDirFiles := [], readResult := .ok [104, 105] }

/-- An environment where every attempt is the fatal `execFatal`. -/
def envFatal : Env := { envRetrySucc with execResults := fun _ => execFatal }

/-- An environment whose caller context is already cancelled before the first attempt. -/
def envCtx : Env := { envRetrySucc with ctxErr := some "context deadline exceeded" }

/-- The cryptcp argument list that `envRetrySucc` runs with: the endpoint is "http://a" (the first random draw), and the PIN appears after "-pin". -/
def argsFix : List String :=
  ["-sign", "-uMy", "-thumbprint", "TH", "-pin", "SECRET-PIN", "-detached",
   "-der", "-cadest", "-cadestsa", "http://a", "data.txt", "-fext", ".sgn"]

end Cprovlib

namespace Cprovlib

/-- Process executions count distributes over trace concatenation. -/
theorem execCount_append (l₁ l₂ : List Event) :
    execCount (l₁ ++ l₂) = execCount l₁ + execCount l₂ := by
  simp [execCount, List.filter_append]

/-- Sleep sequences distribute over trace concatenation. -/
theorem sleepList_append (l₁ l₂ : List Event) :
    sleepList (l₁ ++ l₂) = sleepList l₁ ++ sleepList l₂ := by
  simp [sleepList]

/-- The post-loop tail always ends the trace with the workspace removal. -/
theorem afterLoop_fst_getLast (s w : String) (env : Env) (evs : List Event)
    (lr : Option LastErr × String × String) :
    (afterLoop s w env evs lr).1.getLast? = some (.removeDirAll w) := by
  unfold afterLoop
  rcases lr with ⟨_ | le, so, se⟩
  · dsimp only
    by_cases hf : env.finalStatMissing
    · rw [if_pos hf]
      dsimp only
      rw [show ∀ (x y : Event), evs ++ [x, y] = (evs ++ [x]) ++ [y] from
        fun x y => by simp, List.getLast?_concat]
    · rw [if_neg hf]
      rcases env.readResult with e | bytes <;> simp [List.getLast?_concat]
  · simp [List.getLast?_concat]

/-- The post-loop tail adds no process execution. -/
theorem afterLoop_execCount (s w : String) (env : Env) (evs : List Event)
    (lr : Option LastErr × String × String) :
    execCount (afterLoop s w env evs lr).1 = execCount evs := by
  unfold afterLoop
  rcases lr with ⟨_ | le, so, se⟩
  · dsimp only
    by_cases hf : env.finalStatMissing
    · rw [if_pos hf]; simp [execCount, isExecEvent]
    · rw [if_neg hf]
      rcases env.readResult with e | bytes <;> simp [execCount, isExecEvent]
  · simp [execCount, isExecEvent]

/-- The post-loop tail adds no sleep. -/
theorem afterLoop_sleepList (s w : String) (env : Env) (evs : List Event)
    (lr : Option LastErr × String × String) :
    sleepList (afterLoop s w env evs lr).1 = sleepList evs := by
  unfold afterLoop
  rcases lr with ⟨_ | le, so, se⟩
  · dsimp only
    by_cases hf : env.finalStatMissing
    · rw [if_pos hf]; simp [sleepList]
    · rw [if_neg hf]
      rcases env.readResult with e | bytes <;> simp [sleepList]
  · simp [sleepList]

/-- A surviving `lastErr` is returned wrapped in `ErrSignature`. -/
theorem afterLoop_some (s w : String) (env : Env) (evs : List Event)
    (le : LastErr) (so se : String) :
    (afterLoop s w env evs (some le, so, se)).2 =
      .error ⟨some .signature, .toolFailure le⟩ := rfl

/-- Reduction lemma: once decode, workspace creation and data write succeed, the TSP check passes and the context is live, `signDocument` is the retry loop followed by `afterLoop`. -/
theorem signDocument_run (c : CryptoCLI) (req : SignRequest) (env : Env)
    (d : List Nat) (w : String)
    (hd : env.decodeResult = .ok d) (hm : env.mkdirResult = .ok w)
    (hw : env.writeResult = .ok ())
    (hts : ¬(effectiveSignType c req = 1 ∧ selTSP c req env = ""))
    (hc : env.ctxErr = none) :
    signDocument c req env =
      afterLoop (signFileName w req) w env
        ([argsLogEvent c req (selTSP c req env),
          startLogEvent c req w (selTSP c req env)] ++ (theLoop c req env w).1)
        (theLoop c req env w).2 := by
  unfold signDocument
  rw [hd, hm, hw]
  dsimp only
  rw [if_neg hts, hc]

/-- C9: every invocation returns either an `ErrSignature`-wrapped error, or the base64 encoding of the bytes read from the signature file — never both, never neither. -/
theorem signDocument_result_spec (c : CryptoCLI) (req : SignRequest) (env : Env) :
    (∃ e, (signDocument c req env).2 = .error e ∧ e.wraps = some .signature) ∨
    (∃ bytes, env.readResult = .ok bytes ∧
      (signDocument c req env).2 = .ok (base64Encode bytes)) := by
  rcases hd : env.decodeResult with e | d
  · refine .inl ⟨⟨some .signature, .base64Decode e⟩, ?_, rfl⟩
    simp [signDocument, hd]
  rcases hm : env.mkdirResult with e | w
  · refine .inl ⟨⟨some .signature, .createWorkDir e⟩, ?_, rfl⟩
    simp [signDocument, hd, hm]
  rcases hw : env.writeResult with e | ⟨⟩
  · refine .inl ⟨⟨some .signature, .writeDataFile e⟩, ?_, rfl⟩
    simp [signDocument, hd, hm, hw]
  by_cases hts : effectiveSignType c req = 1 ∧ selTSP c req env = ""
  · refine .inl ⟨⟨some .signature, .tspRequired⟩, ?_, rfl⟩
    unfold signDocument
    rw [hd, hm, hw]
    dsimp only
    rw [if_pos hts]
  rcases hc : env.ctxErr with _ | ce
  · rw [signDocument_run c req env d w hd hm hw hts hc]
    unfold afterLoop
    rcases (theLoop c req env w).2 with ⟨_ | le, so, se⟩
    · dsimp only
      by_cases hf : env.finalStatMissing
      · rw [if_pos hf]
        exact .inl ⟨_, rfl, rfl⟩
      · rw [if_neg hf]
        rcases hr : env.readResult with e | bytes
        · exact .inl ⟨_, rfl, rfl⟩
        · exact .inr ⟨bytes, rfl, rfl⟩
    · exact .inl ⟨_, rfl, rfl⟩
  · refine .inl ⟨⟨some .signature, .ctxCancelledBeforeExec ce⟩, ?_, rfl⟩
    unfold signDocument
    rw [hd, hm, hw]
    dsimp only
    rw [if_neg hts, hc]

/-- C8: whenever the workspace directory was created, the run's last observable event is its recursive removal, on every exit path. -/
theorem workspace_removed (c : CryptoCLI) (req : SignRequest) (env : Env)
    (d : List Nat) (w : String)
    (hd : env.decodeResult = .ok d) (hm : env.mkdirResult = .ok w) :
    (signDocument c req env).1.getLast? = some (.removeDirAll w) := by
  rcases hw : env.writeResult with e | ⟨⟩
  · simp [signDocument, hd, hm, hw]
  by_cases hts : effectiveSignType c req = 1 ∧ selTSP c req env = ""
  · unfold signDocument
    rw [hd, hm, hw]
    dsimp only
    rw [if_pos hts]
    rfl
  rcases hc : env.ctxErr with _ | ce
  · rw [signDocument_run c req env d w hd hm hw hts hc]
    exact afterLoop_fst_getLast _ _ _ _ _
  · unfold signDocument
    rw [hd, hm, hw]
    dsimp only
    rw [if_neg hts, hc]
    rfl

/-- An attempt with "error:" in its output or without the signature file is not successful. -/
theorem attemptSucceeds_eq_false (r : ExecResult)
    (h : hasErrorInOutput r = true ∨ r.signFileExists = false) :
    attemptSucceeds r = false := by
  rcases h with h | h <;> simp [attemptSucceeds, h]

/-- A non-retryable first attempt stops the loop: one execution, no sleep, and the diagnostic of attempt 1 as `lastErr`. -/
theorem attemptLoop_fatal_first (c : CryptoCLI) (env : Env) (args : List String)
    (s w : String)
    (h1 : attemptSucceeds (env.execResults 0) = false)
    (h2 : isHTTPError (env.execResults 0) = false) :
    (attemptLoop c env args s w maxAttempts 1 none "" "").2.1 =
        some (mkLastErr (env.execResults 0) s w) ∧
    execCount (attemptLoop c env args s w maxAttempts 1 none "" "").1 = 1 ∧
    sleepList (attemptLoop c env args s w maxAttempts 1 none "" "").1 = [] := by
  rw [show maxAttempts = 2 + 1 from rfl]
  by_cases ho : ((env.execResults 0).stdout != "" || (env.execResults 0).stderr != "") = true <;>
    simp [attemptLoop, maxAttempts, h1, h2, ho, execCount, sleepList, isExecEvent]

/-- C1: a first attempt classified as a non-retryable failure (the lowered exit-error/stdout/stderr text contains "error:" or the signature file is missing, and the text does not contain "http error") yields exactly one process execution, no backoff sleep, and an immediate `ErrSignature`-wrapped failure. -/
theorem fatal_failure_not_retried (c : CryptoCLI) (req : SignRequest) (env : Env)
    (d : List Nat) (w : String)
    (hd : env.decodeResult = .ok d) (hm : env.mkdirResult = .ok w)
    (hw : env.writeResult = .ok ())
    (hts : ¬(effectiveSignType c req = 1 ∧ selTSP c req env = ""))
    (hc : env.ctxErr = none)
    (hfail : hasErrorInOutput (env.execResults 0) = true ∨
      (env.execResults 0).signFileExists = false)
    (hhttp : isHTTPError (env.execResults 0) = false) :
    execCount (signDocument c req env).1 = 1 ∧
    sleepList (signDocument c req env).1 = [] ∧
    (signDocument c req env).2 = .error ⟨some .signature,
      .toolFailure (mkLastErr (env.execResults 0) (signFileName w req) w)⟩ := by
  rw [signDocument_run c req env d w hd hm hw hts hc]
  obtain ⟨hres, hcnt, hsl⟩ := attemptLoop_fatal_first c env
    (fullArgs c req (selTSP c req env)) (signFileName w req) w
    (attemptSucceeds_eq_false _ hfail) hhttp
  have hloop2 : (theLoop c req env w).2.1 = some (mkLastErr (env.execResults 0) (signFileName w req) w) := hres
  refine ⟨?_, ?_, ?_⟩
  · rw [afterLoop_execCount, execCount_append]
    rw [show execCount [argsLogEvent c req (selTSP c req env),
      startLogEvent c req w (selTSP c req env)] = 0 from rfl]
    simpa [theLoop] using hcnt
  · rw [afterLoop_sleepList, sleepList_append]
    rw [show sleepList [argsLogEvent c req (selTSP c req env),
      startLogEvent c req w (selTSP c req env)] = [] from rfl]
    simpa [theLoop] using hsl
  · rcases hlr : (theLoop c req env w).2 with ⟨le?, so, se⟩
    have : le? = some (mkLastErr (env.execResults 0) (signFileName w req) w) := by
      have := hloop2
      rw [hlr] at this
      exact this
    rw [this]
    exact afterLoop_some _ _ _ _ _ _ _

/-- C6: a CAdES-T request against an empty TSP pool fails with the configuration error before any attempt: zero process executions, zero sleeps. -/
theorem empty_pool_config_error (c : CryptoCLI) (req : SignRequest) (env : Env)
    (d : List Nat) (w : String)
    (hd : env.decodeResult = .ok d) (hm : env.mkdirResult = .ok w)
    (hw : env.writeResult = .ok ())
    (hpool : c.tspServers = []) (hty : effectiveSignType c req = 1) :
    (signDocument c req env).2 = .error ⟨some .signature, .tspRequired⟩ ∧
    execCount (signDocument c req env).1 = 0 ∧
    sleepList (signDocument c req env).1 = [] := by
  have hsel : selTSP c req env = "" := by
    simp [selTSP, hty, getRandomTSPServer, hpool]
  unfold signDocument
  rw [hd, hm, hw]
  dsimp only
  rw [if_pos ⟨hty, hsel⟩]
  exact ⟨rfl, rfl, rfl⟩

/-- C7: a context already cancelled before the first attempt yields zero process executions and the dedicated cancellation error, which is distinct from every tool-failure error. -/
theorem cancelled_ctx_zero_executions (c : CryptoCLI) (req : SignRequest) (env : Env)
    (d : List Nat) (w : String) (ce : String)
    (hd : env.decodeResult = .ok d) (hm : env.mkdirResult = .ok w)
    (hw : env.writeResult = .ok ())
    (hts : ¬(effectiveSignType c req = 1 ∧ selTSP c req env = ""))
    (hc : env.ctxErr = some ce) :
    execCount (signDocument c req env).1 = 0 ∧
    (signDocument c req env).2 =
      .error ⟨some .signature, .ctxCancelledBeforeExec ce⟩ ∧
    ∀ le, (signDocument c req env).2 ≠
      .error ⟨some .signature, .toolFailure le⟩ := by
  unfold signDocument
  rw [hd, hm, hw]
  dsimp only
  rw [if_neg hts, hc]
  refine ⟨rfl, rfl, fun le h => ?_⟩
  simp at h

/-- C2: an attempt is classified successful iff the process exit error is absent, the signature file exists, and the lowered concatenation of exit-error text, stdout and stderr does not contain "error:"; in particular an attempt without the output file is never a success. -/
theorem attempt_success_classification (r : ExecResult) :
    (attemptSucceeds r = true ↔
      (r.exitErr = none ∧ r.signFileExists = true ∧
        strContains (lowerStr (errVStr r.exitErr ++ " " ++ r.stdout ++ " " ++ r.stderr))
          "error:" = false)) ∧
    attemptSucceeds { r with signFileExists := false } = false := by
  constructor
  · simp only [attemptSucceeds, hasErrorInOutput, errorText, Option.isNone_iff_eq_none,
      Bool.not_eq_true', Bool.and_eq_true]
    tauto
  · simp [attemptSucceeds]

/-- C10: `New` stores the default logger in place of a nil one (so the stored logger is always present), and `NewZerologAdapter` maps a nil zerolog pointer to the default logger. -/
theorem constructors_never_nil_logger (store : String) (tspServers : List String)
    (signType : Nat) (logger : Option Logger) (skipChainValidation : Bool) :
    (New store tspServers signType logger skipChainValidation).logger =
      some (logger.getD NewDefaultLogger) ∧
    (New store tspServers signType logger skipChainValidation).logger.isSome = true ∧
    NewZerologAdapter none = NewDefaultLogger ∧
    (∀ z, NewZerologAdapter (some z) = Logger.zerologAdapter z) := by
  refine ⟨?_, ?_, rfl, fun z => rfl⟩ <;> cases logger <;> rfl

/-- Every process execution recorded by the retry loop runs the same fixed command in the same directory. -/
theorem attemptLoop_exec_const (c : CryptoCLI) (env : Env) (args : List String)
    (s w : String) :
    ∀ (fuel attempt : Nat) (le : Option LastErr) (so se : String) (e : Event),
      e ∈ (attemptLoop c env args s w fuel attempt le so se).1 →
      isExecEvent e = true → e = .execCmd c.cryptcpPath args w := by
  intro fuel
  induction fuel with
  | zero =>
    intro attempt le so se e he hex
    simp [attemptLoop] at he
  | succ n ih =>
    intro attempt le so se e he hex
    rw [attemptLoop] at he
    dsimp only at he
    repeat' split at he
    all_goals
      try simp only [List.mem_append, List.mem_cons, List.not_mem_nil, or_false,
        false_or] at he
    all_goals casesm* _ ∨ _
    all_goals
      first
        | (subst e; rfl)
        | (subst e; simp [isExecEvent] at hex)
        | (exact ih _ _ _ _ _ (by assumption) hex)

/-- Any process-execution event of the post-loop trace already belongs to the loop trace. -/
theorem afterLoop_exec_mem (s w : String) (env : Env) (evs : List Event)
    (lr : Option LastErr × String × String) (e : Event)
    (he : e ∈ (afterLoop s w env evs lr).1) (hex : isExecEvent e = true) :
    e ∈ evs := by
  unfold afterLoop at he
  rcases lr with ⟨_ | le, so, se⟩ <;> dsimp only at he
  · by_cases hf : env.finalStatMissing
    · rw [if_pos hf] at he
      simp only [List.mem_append, List.mem_cons, List.not_mem_nil, or_false] at he
      rcases he with he | he | he
      · exact he
      · subst e; simp [isExecEvent] at hex
      · subst e; simp [isExecEvent] at hex
    · rw [if_neg hf] at he
      have he' : e ∈ evs ++ [Event.removeDirAll w] := by
        revert he
        rcases env.readResult with er | bytes <;> exact fun h => h
      simp only [List.mem_append, List.mem_cons, List.not_mem_nil, or_false] at he'
      rcases he' with he' | he'
      · exact he'
      · subst e; simp [isExecEvent] at hex
  · simp only [List.mem_append, List.mem_cons, List.not_mem_nil, or_false] at he
    rcases he with he | he
    · exact he
    · subst e; simp [isExecEvent] at hex

/-- C4 (amended): the TSP endpoint is chosen once, before the retry loop, so all process executions of one run use the identical command — a retry never runs against a different endpoint. -/
theorem tsp_selected_once (c : CryptoCLI) (req : SignRequest) (env : Env)
    (e₁ e₂ : Event)
    (h₁ : e₁ ∈ (signDocument c req env).1) (hx₁ : isExecEvent e₁ = true)
    (h₂ : e₂ ∈ (signDocument c req env).1) (hx₂ : isExecEvent e₂ = true) :
    e₁ = e₂ := by
  rcases hd : env.decodeResult with er | d
  · simp [signDocument, hd] at h₁
  rcases hm : env.mkdirResult with er | w
  · simp [signDocument, hd, hm] at h₁
  rcases hw : env.writeResult with er | ⟨⟩
  · simp [signDocument, hd, hm, hw] at h₁
    subst e₁
    simp [isExecEvent] at hx₁
  by_cases hts : effectiveSignType c req = 1 ∧ selTSP c req env = ""
  · unfold signDocument at h₁
    rw [hd, hm, hw] at h₁
    dsimp only at h₁
    rw [if_pos hts] at h₁
    simp only [List.mem_cons, List.not_mem_nil, or_false] at h₁
    subst e₁
    simp [isExecEvent] at hx₁
  rcases hc : env.ctxErr with _ | ce
  · rw [signDocument_run c req env d w hd hm hw hts hc] at h₁ h₂
    have g₁ := afterLoop_exec_mem _ _ _ _ _ _ h₁ hx₁
    have g₂ := afterLoop_exec_mem _ _ _ _ _ _ h₂ hx₂
    simp only [List.mem_append, List.mem_cons, List.not_mem_nil, or_false] at g₁ g₂
    rcases g₁ with (g₁ | g₁) | g₁
    · subst e₁; simp [argsLogEvent, isExecEvent] at hx₁
    · subst e₁; simp [startLogEvent, isExecEvent] at hx₁
    · rcases g₂ with (g₂ | g₂) | g₂
      · subst e₂; simp [argsLogEvent, isExecEvent] at hx₂
      · subst e₂; simp [startLogEvent, isExecEvent] at hx₂
      · rw [attemptLoop_exec_const c env _ _ _ _ _ _ _ _ _ g₁ hx₁,
           attemptLoop_exec_const c env _ _ _ _ _ _ _ _ _ g₂ hx₂]
  · unfold signDocument at h₁
    rw [hd, hm, hw] at h₁
    dsimp only at h₁
    rw [if_neg hts, hc] at h₁
    simp only [List.mem_cons, List.not_mem_nil, or_false] at h₁
    rcases h₁ with h₁ | h₁ <;>
    · subst e₁
      simp [argsLogEvent, isExecEvent] at hx₁

/-- C3 (bug): with retryable "http error" failures on attempts 1 and 2 and a successful attempt 3, exactly three executions occur with sleeps of 1 and 2 seconds, yet `SignDocument` returns the stale `ErrSignature`-wrapped failure of attempt 2: the loop never clears `lastErr` after a later attempt succeeds, so the artifact is discarded. -/
theorem retry_success_still_returns_error :
    execCount (signDocument cfgFix reqFix envRetrySucc).1 = 3 ∧
    sleepList (signDocument cfgFix reqFix envRetrySucc).1 = [1, 2] ∧
    attemptSucceeds (envRetrySucc.execResults 2) = true ∧
    (signDocument cfgFix reqFix envRetrySucc).2 = .error ⟨some .signature,
      .toolFailure (.fileNotCreated 2 "/tmp/cprov_x/data.txt.sgn" "/tmp/cprov_x"
        ["data.txt"] "HTTP error 503" "")⟩ :=
  ⟨by decide, by decide, by decide, by decide⟩

/-- C4 counterexample: with pool ["http://a", "http://b"] and random draws 0, 1, 2, ..., all three attempts run the identical command naming only "http://a", even though a per-attempt re-selection would have drawn "http://b" for the retry. -/
theorem tsp_not_reselected_counterexample :
    ((signDocument cfgFix reqFix envRetrySucc).1.filter isExecEvent).map execArgs =
      [argsFix, argsFix, argsFix] ∧
    getRandomTSPServer cfgFix (envRetrySucc.rands 1) = "http://b" ∧
    argsFix.contains "http://b" = false ∧ argsFix.contains "http://a" = true :=
  ⟨by decide, by decide, by decide, by decide⟩

/-- Witness for C4 (amended): the process executions at positions 2 and 8 of the concrete retry trace are equal. -/
theorem tsp_selected_once_witness :
    (signDocument cfgFix reqFix envRetrySucc).1.getD 2 (.sleep 0) =
      (signDocument cfgFix reqFix envRetrySucc).1.getD 8 (.sleep 0) :=
  tsp_selected_once cfgFix reqFix envRetrySucc _ _
    (by decide) (by decide) (by decide) (by decide)

/-- C5 (bug): the "cryptcp args" debug log receives the full argument list, which contains the request PIN verbatim. -/
theorem pin_passed_to_logger :
    Event.log .debug "cryptcp args" [("args", .strList argsFix)]
      ∈ (signDocument cfgFix reqFix envRetrySucc).1 ∧
    reqFix.pin ∈ argsFix ∧ reqFix.pin = "SECRET-PIN" :=
  ⟨by decide, by decide, by decide⟩

/-- Witness for C1 at a concrete run whose only attempt reports "Error:" in stdout. -/
theorem fatal_failure_not_retried_witness :
    execCount (signDocument cfgFix reqFix envFatal).1 = 1 ∧
    sleepList (signDocument cfgFix reqFix envFatal).1 = [] ∧
    (signDocument cfgFix reqFix envFatal).2 = .error ⟨some .signature,
      .toolFailure (mkLastErr (envFatal.execResults 0)
        (signFileName "/tmp/cprov_x" reqFix) "/tmp/cprov_x")⟩ :=
  fatal_failure_not_retried cfgFix reqFix envFatal [1, 2, 3] "/tmp/cprov_x"
    rfl rfl rfl (by decide) rfl (Or.inl (by decide)) (by decide)

/-- Witness for C6 at the empty-pool configuration. -/
theorem empty_pool_config_error_witness :
    (signDocument cfgEmptyFix reqFix envRetrySucc).2 =
      .error ⟨some .signature, .tspRequired⟩ ∧
    execCount (signDocument cfgEmptyFix reqFix envRetrySucc).1 = 0 ∧
    sleepList (signDocument cfgEmptyFix reqFix envRetrySucc).1 = [] :=
  empty_pool_config_error cfgEmptyFix reqFix envRetrySucc [1, 2, 3] "/tmp/cprov_x"
    rfl rfl rfl rfl rfl

/-- Witness for C7 at a concretely cancelled context. -/
theorem cancelled_ctx_zero_executions_witness :
    execCount (signDocument cfgFix reqFix envCtx).1 = 0 ∧
    (signDocument cfgFix reqFix envCtx).2 = .error ⟨some .signature,
      .ctxCancelledBeforeExec "context deadline exceeded"⟩ :=
  ⟨(cancelled_ctx_zero_executions cfgFix reqFix envCtx [1, 2, 3] "/tmp/cprov_x"
      "context deadline exceeded" rfl rfl rfl (by decide) rfl).1,
   (cancelled_ctx_zero_executions cfgFix reqFix envCtx [1, 2, 3] "/tmp/cprov_x"
      "context deadline exceeded" rfl rfl rfl (by decide) rfl).2.1⟩

/-- Witness for C8 at the concrete retry run. -/
theorem workspace_removed_witness :
    (signDocument cfgFix reqFix envRetrySucc).1.getLast? =
      some (.removeDirAll "/tmp/cprov_x") :=
  workspace_removed cfgFix reqFix envRetrySucc [1, 2, 3] "/tmp/cprov_x" rfl rfl

end Cprovlib
